import Mathlib

/-!
Verification of the authentication and authorization subsystem of the
note-maker service (Express + Mongoose backend).

The embedding models, from the backend source:
- the mongoose user document (`models/User.ts`): `Account`;
- the jwt helpers (`utils/jwt.ts`): `generateToken` / `verifyToken`,
  with the `JWT_SECRET || 'default-secret'` fallback made explicit;
- the OTP helper (`utils/email.ts`): `generateOTP`, with the
  `Math.random()` draw modelled as a natural-number seed;
- the auth route handlers (`routes/auth.ts`): signup, verify-otp, login,
  google login (mock and production branches), resend-otp;
- the auth middleware (`middleware/auth.ts`): `authenticate`.

Persistent state is a `List Account`; MongoDB queries (`findOne`,
`findById`) become `List.find?`, and `document.save()` on an existing
document becomes an id-keyed replacement (`updateById`).  Timestamps are
naturals (milliseconds for the OTP expiry, abstract instants for the
token clock).  The email dispatch collaborator is modelled by a boolean
outcome (`emailOk`): the handlers only observe whether `sendOTPEmail`
resolved or rejected.
-/

/-- The mongoose user document (`models/User.ts`).  `password` holds the
bcrypt hash when the account was created by local signup and is absent for
google-only accounts; `otp`/`otpExpiry` are present only while an email
verification is pending.  The document id is a natural. -/
structure Account where
  id : Nat
  email : String
  password : Option String
  firstName : String
  lastName : String
  isEmailVerified : Bool
  googleId : Option String
  profilePicture : String
  otp : Option String
  otpExpiry : Option Nat
deriving DecidableEq, Repr

/-- An HTTP reply as the handlers build it: status code plus the `message`
field of the JSON body. -/
structure ApiResponse where
  status : Nat
  message : String
deriving DecidableEq, Repr

/-- JavaScript truthiness of an optional string: `undefined`/`null` and the
empty string are falsy.  Used where the handlers test `!user.googleId`,
`!email`, and the like. -/
def jsFalsy : Option String → Bool
  | none => true
  | some s => s == ""

/-- `findOne({ email })` over the store. -/
def findOneByEmail (store : List Account) (email : String) : Option Account :=
  store.find? (fun u => u.email == email)

/-- `findById` over the store. -/
def findById (store : List Account) (i : Nat) : Option Account :=
  store.find? (fun u => u.id == i)

/-- `document.save()` on an existing document: replace the stored document
with the same id. -/
def updateById (store : List Account) (u : Account) : List Account :=
  store.map (fun v => if v.id == u.id then u else v)

/-- A fresh document id, strictly larger than every id in the store
(MongoDB generates a new `_id` on insert). -/
def freshId (store : List Account) : Nat :=
  store.foldr (fun u m => max (u.id + 1) m) 0

/-- bcrypt hashing (`userSchema.pre('save')` in `models/User.ts`).  Only the
comparison semantics matter to the handlers: `bcrypt.compare(candidate,
hash(pw))` holds exactly when `candidate = pw`.  Modelled by a deterministic
injective tagging. -/
def bcryptHash (password : String) : String :=
  "$2a$12$" ++ password

/-- `userSchema.methods.comparePassword`: false when the account has no
stored password, otherwise a bcrypt comparison against the stored hash. -/
def comparePassword (u : Account) (candidate : String) : Bool :=
  match u.password with
  | none => false
  | some stored => stored == bcryptHash candidate

/-! ### Token service (`utils/jwt.ts`) -/

/-- The claims a session token carries (`JWTPayload` in `utils/jwt.ts`). -/
structure JWTPayload where
  userId : Nat
  email : String
deriving DecidableEq, Repr

/-- A JWT as the verifier sees it: either a well-formed token signed with
some secret and carrying an expiry instant, or a string that does not parse
as a token at all. -/
inductive Token where
  | signed (payload : JWTPayload) (exp : Nat) (secret : String)
  | malformed
deriving DecidableEq, Repr

/-- The secret `generateToken` signs with:
`process.env.JWT_SECRET || 'default-secret'` (an unset or empty variable is
falsy). -/
def generateTokenSecret (env : Option String) : String :=
  match env with
  | some s => if s == "" then "default-secret" else s
  | none => "default-secret"

/-- The secret `verifyToken` checks with: the same
`process.env.JWT_SECRET || 'default-secret'` expression, read independently
in `verifyToken`. -/
def verifyTokenSecret (env : Option String) : String :=
  match env with
  | some s => if s == "" then "default-secret" else s
  | none => "default-secret"

/-- `JWT_EXPIRE` defaults to `'7d'`; in seconds. -/
def defaultJwtExpireSeconds : Nat := 7 * 24 * 60 * 60

/-- `generateToken`: sign `{userId, email}` with the process secret, expiry
`expSec` after the issuance instant `now`. -/
def generateToken (env : Option String) (expSec now : Nat) (u : Account) : Token :=
  .signed ⟨u.id, u.email⟩ (now + expSec) (generateTokenSecret env)

/-- The distinct failures `jsonwebtoken`'s `verify` throws: an expired `exp`
claim, a signature that does not verify, or input that is not a token. -/
inductive TokenError where
  | expired
  | invalidSignature
  | malformed
deriving DecidableEq, Repr

/-- `verifyToken`: `jwt.verify(token, secret)` — reject non-tokens, check
the signature against the process secret, then reject when the clock has
reached the `exp` instant (`jsonwebtoken` expires at `now ≥ exp`). -/
def verifyToken (env : Option String) (now : Nat) : Token → Except TokenError JWTPayload
  | .malformed => .error .malformed
  | .signed p e s =>
    if s == verifyTokenSecret env then
      if now < e then .ok p else .error .expired
    else .error .invalidSignature

/-- The secret a signed token carries (for stating what a token was signed
with). -/
def tokenSecret : Token → Option String
  | .signed _ _ s => some s
  | .malformed => none

/-! ### OTP issuance (`utils/email.ts`) -/

/-- `generateOTP`: `Math.floor(100000 + Math.random() * 900000).toString()`.
`Math.random() * 900000` floored is an integer draw in `[0, 900000)`,
modelled by `r % 900000` for an arbitrary natural seed `r`. -/
def otpNumber (r : Nat) : Nat := 100000 + r % 900000

/-- The issued OTP code string. -/
def generateOTP (r : Nat) : String := Nat.repr (otpNumber r)

/-- The OTP validity window set by signup and resend:
`Date.now() + 10 * 60 * 1000`. -/
def otpWindowMillis : Nat := 10 * 60 * 1000

/-! ### Signup handler (`POST /api/auth/signup`) -/

/-- The body of a signup request after Joi validation (`signupSchema`:
well-formed email, password of length at least 6, bounded names; malformed
requests are rejected with a field message before the handler logic runs). -/
structure SignupRequest where
  email : String
  password : String
  firstName : String
  lastName : String
deriving DecidableEq, Repr

def userAlreadyExists : ApiResponse :=
  ⟨400, "User already exists with this email"⟩

def signupCreated : ApiResponse :=
  ⟨201, "User registered successfully. Please check your email for OTP verification."⟩

/-- The document the signup handler constructs: unverified, with a pending
OTP expiring ten minutes after `now`, password bcrypt-hashed by the
pre-save hook. -/
def newLocalAccount (req : SignupRequest) (otpRand now : Nat)
    (store : List Account) : Account :=
  { id := freshId store
    email := req.email
    password := some (bcryptHash req.password)
    firstName := req.firstName
    lastName := req.lastName
    isEmailVerified := false
    googleId := none
    profilePicture := ""
    otp := some (generateOTP otpRand)
    otpExpiry := some (now + otpWindowMillis) }

/-- What the signup handler produces: the HTTP reply, the store after the
handler, and whether the `catch (emailError)` branch ran (the handler logs
the dispatch failure and still answers 201). -/
structure SignupResult where
  response : ApiResponse
  store : List Account
  emailFailureLogged : Bool
deriving DecidableEq, Repr

/-- The signup handler: reject an already-registered email with 400,
otherwise create the unverified document and answer 201 — the
`sendOTPEmail` outcome (`emailOk`) is swallowed by the inner try/catch. -/
def signup (req : SignupRequest) (otpRand now : Nat) (emailOk : Bool)
    (store : List Account) : SignupResult :=
  if (findOneByEmail store req.email).isSome then
    { response := userAlreadyExists, store := store, emailFailureLogged := false }
  else
    { response := signupCreated
      store := newLocalAccount req otpRand now store :: store
      emailFailureLogged := !emailOk }

/-! ### Signup race machine

The handler is `findOne({email})` followed by `user.save()`; between the
two, another request may run.  Each in-flight signup is a two-step thread:
the existence check (answering 400 when the email is taken) and the insert,
where the unique index on `email` rejects a duplicate — the handler's
catch-all turns that rejection into the 500 reply. -/

inductive SignupOutcome where
  | created
  | conflict
  | serverError
deriving DecidableEq, Repr

/-- One in-flight signup request: whether its `findOne` check has run, and
its outcome once it answered. -/
structure SignupThread where
  checked : Bool
  outcome : Option SignupOutcome
deriving DecidableEq, Repr

/-- Whether some stored account already uses the email. -/
def emailTaken (store : List Account) (email : String) : Bool :=
  store.any (fun u => u.email == email)

/-- Run the next step of one signup thread for the account `acct` it is
trying to insert. -/
def signupStep (acct : Account) (store : List Account) (t : SignupThread) :
    List Account × SignupThread :=
  match t.outcome with
  | some _ => (store, t)
  | none =>
    if t.checked then
      if emailTaken store acct.email then
        (store, { t with outcome := some .serverError })
      else
        (acct :: store, { t with outcome := some .created })
    else
      if emailTaken store acct.email then
        (store, { checked := true, outcome := some .conflict })
      else
        (store, { checked := true, outcome := none })

/-- Two concurrent signup requests over one shared store. -/
structure RaceState where
  store : List Account
  a : SignupThread
  b : SignupThread
deriving DecidableEq, Repr

/-- Interleave one step: `true` schedules request `a`, `false` request `b`. -/
def raceStep (ra rb : Account) (s : RaceState) (pick : Bool) : RaceState :=
  if pick then
    let (st, t) := signupStep ra s.store s.a
    { s with store := st, a := t }
  else
    let (st, t) := signupStep rb s.store s.b
    { s with store := st, b := t }

/-- Run a whole schedule of interleaved steps. -/
def runRace (ra rb : Account) (init : RaceState) (sched : List Bool) : RaceState :=
  sched.foldl (raceStep ra rb) init

/-- Both requests about to start against the given store. -/
def startState (store : List Account) : RaceState :=
  ⟨store, ⟨false, none⟩, ⟨false, none⟩⟩

/-- How many stored accounts use the email. -/
def countEmail (store : List Account) (email : String) : Nat :=
  store.countP (fun u => u.email == email)

/-- 1 when the thread outcome is a successful creation. -/
def createdCount : Option SignupOutcome → Nat
  | some .created => 1
  | _ => 0

/-! ### OTP verification handler (`POST /api/auth/verify-otp`) -/

def invalidOrExpiredOtp : ApiResponse := ⟨400, "Invalid or expired OTP"⟩

/-- The selector of `findOne({email, otp, otpExpiry: {$gt: new Date()},
isEmailVerified: false})`: all four conditions at once, and a document
missing `otp` or `otpExpiry` never matches. -/
def otpSelector (now : Nat) (email code : String) (u : Account) : Bool :=
  u.email == email && u.otp == some code &&
    (match u.otpExpiry with
     | some e => decide (now < e)
     | none => false) &&
    u.isEmailVerified == false

/-- The 200 body of a successful verification: the freshly minted session
token and the verified user. -/
structure OtpSuccess where
  token : Token
  user : Account
deriving DecidableEq, Repr

/-- The verify-otp handler (after Joi validation): one `findOne` with the
combined selector; a miss answers the generic 400, a hit flips the document
to verified, clears both otp fields, persists, and mints a token. -/
def verifyOtp (env : Option String) (expSec now : Nat) (email code : String)
    (store : List Account) : Except ApiResponse OtpSuccess × List Account :=
  match store.find? (otpSelector now email code) with
  | none => (.error invalidOrExpiredOtp, store)
  | some u =>
    let u' := { u with isEmailVerified := true, otp := none, otpExpiry := none }
    (.ok ⟨generateToken env expSec now u', u'⟩, updateById store u')

/-! ### Login handler (`POST /api/auth/login`) -/

def invalidCredentials : ApiResponse := ⟨401, "Invalid credentials"⟩

def verifyEmailFirst : ApiResponse :=
  ⟨401, "Please verify your email before logging in"⟩

inductive LoginResult where
  | success (token : Token) (user : Account)
  | failure (resp : ApiResponse)
deriving DecidableEq, Repr

/-- The login handler (after Joi validation): unknown email answers 401
`Invalid credentials`; a found but unverified account answers 401 with the
verification reminder; a failed bcrypt comparison answers 401 `Invalid
credentials`; otherwise a session token is minted.  No store mutation. -/
def login (env : Option String) (expSec now : Nat) (email password : String)
    (store : List Account) : LoginResult :=
  match findOneByEmail store email with
  | none => .failure invalidCredentials
  | some u =>
    if !u.isEmailVerified then .failure verifyEmailFirst
    else if !comparePassword u password then .failure invalidCredentials
    else .success (generateToken env expSec now u) u

/-- The status code a login result is delivered with. -/
def loginStatus : LoginResult → Nat
  | .success _ _ => 200
  | .failure r => r.status

/-! ### Google login handler (`POST /api/auth/google`) -/

/-- The profile fields the handler extracts from a google id-token payload
(subject id, email, given/family name, avatar), once all required fields are
present. -/
structure GoogleProfile where
  sub : String
  email : String
  givenName : String
  familyName : String
  picture : String
deriving DecidableEq, Repr

/-- The sentinel the development branch compares the posted token
against. -/
def mockGoogleToken : String := "mock_google_token_for_development"

/-- The hardcoded `mockPayload` of the development branch. -/
def mockProfile : GoogleProfile :=
  { sub := "dev_google_id_123"
    email := "test@gmail.com"
    givenName := "Test"
    familyName := "User"
    picture := "https://ui-avatars.com/api/?name=Test+User&background=4285f4&color=fff" }

/-- The selector of `findOne({$or: [{email}, {googleId}]})`. -/
def googleSelector (sub email : String) (u : Account) : Bool :=
  u.email == email || u.googleId == some sub

/-- The document the google handler creates when no account matches the
profile: verified immediately, no password hash. -/
def newGoogleAccount (p : GoogleProfile) (store : List Account) : Account :=
  { id := freshId store
    email := p.email
    password := none
    firstName := p.givenName
    lastName := p.familyName
    isEmailVerified := true
    googleId := some p.sub
    profilePicture := p.picture
    otp := none
    otpExpiry := none }

/-- The link-or-create step shared by both google branches: look up by email
or google id; stamp the google id and mark verified when the found account
has none (`!user.googleId`); otherwise return the account as stored; create
a verified, password-less account when nothing matches. -/
def linkOrCreate (p : GoogleProfile) (store : List Account) :
    Account × List Account :=
  match store.find? (googleSelector p.sub p.email) with
  | some u =>
    if jsFalsy u.googleId then
      let u' := { u with googleId := some p.sub, isEmailVerified := true }
      (u', updateById store u')
    else (u, store)
  | none =>
    (newGoogleAccount p store, newGoogleAccount p store :: store)

/-- The outcomes of `googleClient.verifyIdToken` + `ticket.getPayload()`:
the library rejects the token, or yields no payload, or yields a payload
whose profile fields may individually be absent. -/
inductive GoogleVerifyOutcome where
  | throws
  | noPayload
  | payload (sub : String) (email givenName familyName picture : Option String)
deriving DecidableEq, Repr

inductive GoogleAuthResult where
  | success (message : String) (token : Token) (user : Account)
  | failure (resp : ApiResponse)
deriving DecidableEq, Repr

def invalidGoogleToken : ApiResponse := ⟨401, "Invalid Google token"⟩

def incompleteGoogleProfile : ApiResponse :=
  ⟨400, "Incomplete Google profile information"⟩

def googleServerError : ApiResponse :=
  ⟨500, "Server error during Google authentication"⟩

/-- The google login handler (after Joi validation).  The development branch
fires exactly when the posted token is the sentinel and `NODE_ENV` is
`'development'`; it never consults the google verifier and links or creates
the fixed mock profile.  The production branch delegates to
`verifyIdToken`: a rejection lands in the catch-all (500), a missing payload
answers 401, a payload missing email or a name answers 400, and otherwise
the extracted profile is linked or created.  (`user.isNew` is false after
`save()`, so the success message is always `'Login successful'` there.) -/
def googleAuth (env : Option String) (expSec now : Nat) (nodeEnv : String)
    (verifyIdToken : String → GoogleVerifyOutcome) (googleToken : String)
    (store : List Account) : GoogleAuthResult × List Account :=
  if googleToken == mockGoogleToken && nodeEnv == "development" then
    let (u, store') := linkOrCreate mockProfile store
    (.success "Development Google login successful"
      (generateToken env expSec now u) u, store')
  else
    match verifyIdToken googleToken with
    | .throws => (.failure googleServerError, store)
    | .noPayload => (.failure invalidGoogleToken, store)
    | .payload sub email given family picture =>
      if jsFalsy email || jsFalsy given || jsFalsy family then
        (.failure incompleteGoogleProfile, store)
      else
        let (u, store') := linkOrCreate
          ⟨sub, email.getD "", given.getD "", family.getD "", picture.getD ""⟩ store
        (.success "Login successful" (generateToken env expSec now u) u, store')

/-! ### Resend handler (`POST /api/auth/resend-otp`) -/

def emailRequired : ApiResponse := ⟨400, "Email is required"⟩

def resendNotFound : ApiResponse :=
  ⟨404, "User not found or already verified"⟩

def resendOk : ApiResponse := ⟨200, "OTP sent successfully"⟩

def resendEmailFailed : ApiResponse := ⟨500, "Failed to send OTP email"⟩

/-- The selector of the resend lookup:
`findOne({email, isEmailVerified: false})`. -/
def resendSelector (email : String) (u : Account) : Bool :=
  u.email == email && u.isEmailVerified == false

/-- The resend-otp handler: reject a falsy email; 404 when no unverified
account uses the email; otherwise persist a fresh code and window with
`user.save()` and only then attempt the dispatch — a dispatch failure is
answered 500, after the new code is already stored. -/
def resendOtp (otpRand now : Nat) (emailOk : Bool) (email : String)
    (store : List Account) : ApiResponse × List Account :=
  if email == "" then (emailRequired, store)
  else
    match store.find? (resendSelector email) with
    | none => (resendNotFound, store)
    | some u =>
      let u' := { u with otp := some (generateOTP otpRand)
                         otpExpiry := some (now + otpWindowMillis) }
      let store' := updateById store u'
      if emailOk then (resendOk, store') else (resendEmailFailed, store')

/-! ### Authorization gate (`middleware/auth.ts`) -/

/-- The account view the gate attaches:
`findById(...).select('-password -otp -otpExpiry')`. -/
def publicProjection (u : Account) : Account :=
  { u with password := none, otp := none, otpExpiry := none }

/-- What the middleware does with a request: refuse it with one of the three
401 replies, or attach the resolved account view and pass control on. -/
inductive AuthResult where
  | noToken
  | invalidToken
  | userNotFound
  | attached (user : Account)
deriving DecidableEq, Repr

/-- The reply each refusal is delivered with. -/
def authFailureResponse : AuthResult → Option ApiResponse
  | .noToken => some ⟨401, "Access denied. No token provided."⟩
  | .invalidToken => some ⟨401, "Token is not valid."⟩
  | .userNotFound => some ⟨401, "Token is not valid - user not found."⟩
  | .attached _ => none

/-- The `authenticate` middleware: a missing or non-`Bearer` header is
refused outright; then the bearer credential goes through `verifyToken`,
and every `verifyToken` failure is caught by one handler answering the
single `Token is not valid.` reply; a verified token whose `userId` resolves
to no stored account is refused as stale; otherwise the projected account is
attached.  The store is returned untouched: the gate never writes. -/
def authenticate (env : Option String) (now : Nat) (store : List Account)
    (header : Option Token) : AuthResult × List Account :=
  match header with
  | none => (.noToken, store)
  | some tok =>
    match verifyToken env now tok with
    | .error _ => (.invalidToken, store)
    | .ok payload =>
      match findById store payload.userId with
      | none => (.userNotFound, store)
      | some u => (.attached (publicProjection u), store)

/-! ### Helper lemmas -/

/-- The two independent reads of `process.env.JWT_SECRET || 'default-secret'`
produce the same secret. -/
theorem tokenSecret_agree (env : Option String) :
    generateTokenSecret env = verifyTokenSecret env := by
  cases env <;> rfl

/-- The combined verify-otp selector, spelled out. -/
theorem otpSelector_iff (now : Nat) (email code : String) (u : Account) :
    otpSelector now email code u = true ↔
      u.email = email ∧ u.otp = some code ∧
        (∃ e, u.otpExpiry = some e ∧ now < e) ∧ u.isEmailVerified = false := by
  unfold otpSelector
  cases h : u.otpExpiry <;> simp [h, and_assoc]

/-- C10: with `JWT_SECRET` unset, both issuance and verification fall back to
the literal `default-secret`; the two reads of the secret agree for every
environment, every token minted in an unconfigured process is signed with the
public constant, and such a token round-trips through `verifyToken` before
its expiry. -/
theorem jwt_default_secret_fallback :
    generateTokenSecret none = "default-secret"
    ∧ verifyTokenSecret none = "default-secret"
    ∧ (∀ env, generateTokenSecret env = verifyTokenSecret env)
    ∧ (∀ expSec iat u,
        tokenSecret (generateToken none expSec iat u) = some "default-secret")
    ∧ (∀ expSec iat now u, now < iat + expSec →
        verifyToken none now (generateToken none expSec iat u) =
          .ok ⟨u.id, u.email⟩) := by
  refine ⟨rfl, rfl, tokenSecret_agree, fun _ _ _ => rfl, fun expSec iat now u h => ?_⟩
  simp [generateToken, verifyToken, generateTokenSecret, verifyTokenSecret, h]

/-- C4: a token issued at `iat` with lifetime `expSec` verifies exactly at
the instants strictly before `iat + expSec` and is rejected as expired from
that instant on; and every `verifyToken` failure — expired, bad signature or
malformed alike — is caught by the gate's single handler, so the caller sees
the one `invalidToken` refusal whichever branch fired. -/
theorem token_lifecycle_and_error_collapse (env : Option String)
    (expSec iat now : Nat) (u : Account) (store : List Account) :
    (verifyToken env now (generateToken env expSec iat u) = .ok ⟨u.id, u.email⟩
      ↔ now < iat + expSec)
    ∧ (iat + expSec ≤ now →
        verifyToken env now (generateToken env expSec iat u) = .error .expired)
    ∧ (∀ tok e, verifyToken env now tok = .error e →
        authenticate env now store (some tok) = (.invalidToken, store)) := by
  have hsec := tokenSecret_agree env
  refine ⟨?_, fun h => ?_, fun tok e h => ?_⟩
  · simp only [generateToken, verifyToken, hsec, beq_self_eq_true, if_true]
    constructor
    · intro h
      by_contra hn
      simp [if_neg hn] at h
    · intro h
      simp [if_pos h]
  · simp [generateToken, verifyToken, hsec, Nat.not_lt.mpr h]
  · simp [authenticate, h]

/-- C5: the gate never writes the store; a token that verifies but whose
`userId` resolves to no stored account is refused with the 401 stale-token
reply; when the account exists the gate attaches exactly the projection that
drops the password hash and both otp fields. -/
theorem authorization_gate_resolution (env : Option String) (now : Nat)
    (store : List Account) (tok : Token) :
    ((authenticate env now store (some tok)).2 = store)
    ∧ ((authenticate env now store none).2 = store)
    ∧ (∀ p, verifyToken env now tok = .ok p → findById store p.userId = none →
        authenticate env now store (some tok) = (.userNotFound, store)
        ∧ authFailureResponse .userNotFound =
            some ⟨401, "Token is not valid - user not found."⟩)
    ∧ (∀ p u, verifyToken env now tok = .ok p → findById store p.userId = some u →
        authenticate env now store (some tok) = (.attached (publicProjection u), store)
        ∧ (publicProjection u).password = none
        ∧ (publicProjection u).otp = none
        ∧ (publicProjection u).otpExpiry = none) := by
  refine ⟨?_, rfl, fun p hv hf => ?_, fun p u hv hf => ?_⟩
  · cases hv : verifyToken env now tok with
    | error e => simp [authenticate, hv]
    | ok p =>
      cases hf : findById store p.userId <;> simp [authenticate, hv, hf]
  · exact ⟨by simp [authenticate, hv, hf], rfl⟩
  · exact ⟨by simp [authenticate, hv, hf], rfl, rfl, rfl⟩

/-- C1: verify-otp succeeds exactly when some stored account has the
requested email, stores exactly the submitted code, has an expiry window the
clock has not reached, and is still unverified; on success the persisted
account is verified with both otp fields cleared and a session token is
minted for it; whenever no account matches — wrong code, expired window,
already verified, or unknown email alike — the handler answers the one
generic 400 reply and leaves the store untouched. -/
theorem verifyOtp_all_or_nothing (env : Option String) (expSec now : Nat)
    (email code : String) (store : List Account) :
    ((verifyOtp env expSec now email code store).1.isOk ↔
      ∃ u ∈ store, u.email = email ∧ u.otp = some code ∧
        (∃ e, u.otpExpiry = some e ∧ now < e) ∧ u.isEmailVerified = false)
    ∧ (∀ res st, verifyOtp env expSec now email code store = (.ok res, st) →
        res.user.isEmailVerified = true ∧ res.user.otp = none
        ∧ res.user.otpExpiry = none
        ∧ st = updateById store res.user
        ∧ res.token = generateToken env expSec now res.user)
    ∧ ((¬ ∃ u ∈ store, otpSelector now email code u) →
        verifyOtp env expSec now email code store =
          (.error invalidOrExpiredOtp, store)) := by
  refine ⟨?_, fun res st h => ?_, fun hno => ?_⟩
  · have hsome : (verifyOtp env expSec now email code store).1.isOk =
        (store.find? (otpSelector now email code)).isSome := by
      cases hf : store.find? (otpSelector now email code) <;>
        simp [verifyOtp, hf, Except.isOk, Except.toBool]
    rw [hsome, List.find?_isSome]
    constructor
    · rintro ⟨u, hu, hsel⟩
      exact ⟨u, hu, (otpSelector_iff now email code u).mp hsel⟩
    · rintro ⟨u, hu, hsel⟩
      exact ⟨u, hu, (otpSelector_iff now email code u).mpr hsel⟩
  · cases hf : store.find? (otpSelector now email code) with
    | none => simp [verifyOtp, hf] at h
    | some u =>
      simp only [verifyOtp, hf] at h
      obtain ⟨h1, h2⟩ := Prod.mk.injEq .. ▸ h
      cases h1
      cases h2
      exact ⟨rfl, rfl, rfl, rfl, rfl⟩
  · have hf : store.find? (otpSelector now email code) = none :=
      List.find?_eq_none.mpr (by simpa using hno)
    simp [verifyOtp, hf]

/-- C2 counterexample: with one stored unverified account for `a@x.com`
whose password is `secret1`, the unverified-with-correct-password login
answers the distinct `Please verify your email before logging in` body,
while the nonexistent-email login answers `Invalid credentials` — so the
three failure cases are not all indistinguishable, refuting the claim's
same-body requirement. -/
def loginCexAccount : Account :=
  { id := 1, email := "a@x.com", password := some (bcryptHash "secret1")
    firstName := "A", lastName := "B", isEmailVerified := false
    googleId := none, profilePicture := ""
    otp := some "123456", otpExpiry := some 10 }

theorem login_same_body_cex :
    comparePassword loginCexAccount "secret1" = true
    ∧ login none 604800 0 "a@x.com" "secret1" [loginCexAccount] =
        .failure verifyEmailFirst
    ∧ login none 604800 0 "b@x.com" "secret1" [loginCexAccount] =
        .failure invalidCredentials
    ∧ verifyEmailFirst ≠ invalidCredentials := by
  refine ⟨rfl, rfl, rfl, ?_⟩
  intro h
  exact absurd (congrArg ApiResponse.message h) (by decide)

/-- C2 amended: all three failure cases answer status 401, and the
wrong-password and nonexistent-email cases produce the identical
`Invalid credentials` reply, but the unverified-account case is answered
with the distinct verification-reminder body. -/
theorem login_unauthenticated_cases (env : Option String) (expSec now : Nat)
    (email password : String) (store : List Account) :
    (findOneByEmail store email = none →
      login env expSec now email password store = .failure invalidCredentials)
    ∧ (∀ u, findOneByEmail store email = some u → u.isEmailVerified = false →
        login env expSec now email password store = .failure verifyEmailFirst)
    ∧ (∀ u, findOneByEmail store email = some u → u.isEmailVerified = true →
        comparePassword u password = false →
        login env expSec now email password store = .failure invalidCredentials)
    ∧ (∀ r, login env expSec now email password store = .failure r →
        r.status = 401) := by
  refine ⟨fun h => by simp [login, h], fun u hf hu => by simp [login, hf, hu],
    fun u hf hu hp => by simp [login, hf, hu, hp], fun r h => ?_⟩
  cases hf : findOneByEmail store email with
  | none =>
    simp [login, hf] at h
    simp [← h, invalidCredentials]
  | some u =>
    by_cases hu : u.isEmailVerified
    · by_cases hp : comparePassword u password
      · simp [login, hf, hu, hp] at h
      · simp [login, hf, hu, hp] at h
        simp [← h, invalidCredentials]
    · simp only [Bool.not_eq_true] at hu
      simp [login, hf, hu] at h
      simp [← h, verifyEmailFirst]

/-- Counting an email over a cons cell. -/
theorem countEmail_cons (u : Account) (store : List Account) (e : String) :
    countEmail (u :: store) e =
      countEmail store e + (if u.email == e then 1 else 0) := by
  simp [countEmail, List.countP_cons]

/-- A failed existence check means no stored account uses the email. -/
theorem emailTaken_false_count (store : List Account) (e : String)
    (h : emailTaken store e = false) : countEmail store e = 0 := by
  rw [countEmail, List.countP_eq_zero]
  intro u hu
  simp only [emailTaken, List.any_eq_false] at h
  exact h u hu

/-- And conversely: an unused email passes the existence check. -/
theorem emailTaken_of_count_zero (store : List Account) (e : String)
    (h : countEmail store e = 0) : emailTaken store e = false := by
  rw [emailTaken, List.any_eq_false]
  intro u hu
  rw [countEmail, List.countP_eq_zero] at h
  exact h u hu

/-- The race invariant: the accounts stored under the contested email are
exactly the successful creations so far, and there is at most one. -/
def raceInv (e : String) (s : RaceState) : Prop :=
  countEmail s.store e = createdCount s.a.outcome + createdCount s.b.outcome
  ∧ countEmail s.store e ≤ 1

/-- One interleaved step preserves the race invariant: a check step never
writes, an insert step succeeds only from a store where the email is unused,
and the unique index turns the losing insert into a no-write failure. -/
theorem raceStep_preserves (ra rb : Account) (hb : rb.email = ra.email)
    (s : RaceState) (pick : Bool) (h : raceInv ra.email s) :
    raceInv ra.email (raceStep ra rb s pick) := by
  obtain ⟨store, ⟨ach, aout⟩, ⟨bch, bout⟩⟩ := s
  obtain ⟨h1, h2⟩ := h
  simp only [raceInv] at h1 h2 ⊢
  cases pick with
  | true =>
    cases aout with
    | some o => exact ⟨h1, h2⟩
    | none =>
      cases ach with
      | false =>
        cases ht : emailTaken store ra.email <;>
          simp_all [raceStep, signupStep, createdCount]
      | true =>
        cases ht : emailTaken store ra.email with
        | false =>
          have hc0 := emailTaken_false_count store ra.email ht
          simp only [raceStep, signupStep] at *
          simp [ht, countEmail_cons, createdCount] at *
          omega
        | true => simp_all [raceStep, signupStep, createdCount]
  | false =>
    cases bout with
    | some o => exact ⟨h1, h2⟩
    | none =>
      cases bch with
      | false =>
        cases ht : emailTaken store rb.email <;>
          simp_all [raceStep, signupStep, createdCount, hb]
      | true =>
        cases ht : emailTaken store rb.email with
        | false =>
          rw [hb] at ht
          have hc0 := emailTaken_false_count store ra.email ht
          simp only [raceStep, signupStep] at *
          simp [ht, hb, countEmail_cons, createdCount] at *
          omega
        | true => simp_all [raceStep, signupStep, createdCount]

/-- The invariant holds along any whole schedule. -/
theorem runRace_inv (ra rb : Account) (hb : rb.email = ra.email)
    (sched : List Bool) (s : RaceState) (h : raceInv ra.email s) :
    raceInv ra.email (runRace ra rb s sched) := by
  induction sched generalizing s with
  | nil => exact h
  | cons p rest ih => exact ih _ (raceStep_preserves ra rb hb s p h)

/-- C3 counterexample inputs: two signup requests for the one email
`dup@x.com` against an empty store, interleaved check/check/insert/insert. -/
def raceAcctA : Account :=
  ⟨1, "dup@x.com", some "hashA", "Ann", "A", false, none, "", none, none⟩

def raceAcctB : Account :=
  ⟨2, "dup@x.com", some "hashB", "Bob", "B", false, none, "", none, none⟩

/-- C3 counterexample: under the interleaving where both existence checks
run before either insert, the first request is created and the losing
request's insert is rejected by the unique index, which the handler's
catch-all answers as the generic 500 server error — not the 400 Conflict
the claim promises for every timing. -/
theorem signup_race_conflict_cex :
    (runRace raceAcctA raceAcctB (startState []) [true, false, true, false]).a.outcome
       = some SignupOutcome.created
    ∧ (runRace raceAcctA raceAcctB (startState []) [true, false, true, false]).b.outcome
       = some SignupOutcome.serverError
    ∧ some SignupOutcome.serverError ≠ some SignupOutcome.conflict := by
  decide

/-- C3 amended: for two signup requests with the same email, under every
interleaving of their check and insert steps at most one is created and the
store never ends with two accounts under that email; when the second request
runs entirely after the first, it fails with the 400 Conflict reply; but a
racing loser whose check passed before the winner's insert fails with the
generic 500 server error instead of Conflict. -/
theorem signup_race_no_duplicates (ra rb : Account) (store : List Account)
    (sched : List Bool) (hb : rb.email = ra.email)
    (h0 : countEmail store ra.email = 0) :
    (¬((runRace ra rb (startState store) sched).a.outcome = some .created
        ∧ (runRace ra rb (startState store) sched).b.outcome = some .created))
    ∧ countEmail (runRace ra rb (startState store) sched).store ra.email ≤ 1
    ∧ (runRace ra rb (startState store) [true, true, false, false]).b.outcome
        = some .conflict := by
  have hstart : raceInv ra.email (startState store) := by
    constructor
    · simpa [startState, createdCount] using h0
    · simpa [startState] using Nat.le_of_eq h0 |>.trans (Nat.zero_le 1)
  obtain ⟨hf1, hf2⟩ := runRace_inv ra rb hb sched (startState store) hstart
  have htaken := emailTaken_of_count_zero store ra.email h0
  refine ⟨?_, hf2, ?_⟩
  · rintro ⟨hA, hB⟩
    rw [hA, hB] at hf1
    simp [createdCount] at hf1
    omega
  · have s1 : raceStep ra rb (startState store) true =
        ⟨store, ⟨true, none⟩, ⟨false, none⟩⟩ := by
      simp [raceStep, signupStep, startState, htaken]
    have s2 : raceStep ra rb ⟨store, ⟨true, none⟩, ⟨false, none⟩⟩ true =
        ⟨ra :: store, ⟨true, some .created⟩, ⟨false, none⟩⟩ := by
      simp [raceStep, signupStep, htaken]
    have s3 : raceStep ra rb ⟨ra :: store, ⟨true, some .created⟩, ⟨false, none⟩⟩ false =
        ⟨ra :: store, ⟨true, some .created⟩, ⟨true, some .conflict⟩⟩ := by
      simp [raceStep, signupStep, emailTaken, hb]
    have s4 : raceStep ra rb
        ⟨ra :: store, ⟨true, some .created⟩, ⟨true, some .conflict⟩⟩ false =
        ⟨ra :: store, ⟨true, some .created⟩, ⟨true, some .conflict⟩⟩ := by
      simp [raceStep, signupStep]
    simp only [runRace, List.foldl, s1, s2, s3, s4]

/-- C3 witness: the race-safety theorem applied to the two concrete
`dup@x.com` signups against the empty store under a concrete schedule. -/
theorem signup_race_no_duplicates_witness :
    raceAcctB.email = raceAcctA.email
    ∧ countEmail [] raceAcctA.email = 0
    ∧ ((¬((runRace raceAcctA raceAcctB (startState []) [true, false, true, false]).a.outcome
            = some .created
        ∧ (runRace raceAcctA raceAcctB (startState []) [true, false, true, false]).b.outcome
            = some .created))
      ∧ countEmail (runRace raceAcctA raceAcctB (startState [])
          [true, false, true, false]).store raceAcctA.email ≤ 1
      ∧ (runRace raceAcctA raceAcctB (startState []) [true, true, false, false]).b.outcome
          = some .conflict) :=
  ⟨rfl, rfl, signup_race_no_duplicates raceAcctA raceAcctB [] [true, false, true, false]
    rfl rfl⟩

/-! ### Lemmas about ids and `updateById` (for the google link-or-create) -/

/-- A fresh id is strictly above every stored id. -/
theorem freshId_gt (store : List Account) : ∀ v ∈ store, v.id < freshId store := by
  induction store with
  | nil => intro v hv; cases hv
  | cons x xs ih =>
    intro v hv
    rcases List.mem_cons.mp hv with hv | hv
    · rw [hv]
      exact Nat.lt_of_lt_of_le (Nat.lt_succ_self _) (Nat.le_max_left _ _)
    · exact Nat.lt_of_lt_of_le (ih v hv) (Nat.le_max_right _ _)

/-- Replacing a document by itself (up to id) changes nothing when every
stored document with that id is the document itself. -/
theorem updateById_eq_self (l : List Account) (u : Account)
    (h : ∀ v ∈ l, v.id = u.id → v = u) : updateById l u = l := by
  induction l with
  | nil => rfl
  | cons x xs ih =>
    simp only [updateById, List.map_cons]
    by_cases hx : x.id = u.id
    · rw [if_pos (by simpa using hx), h x (List.mem_cons_self x xs) hx]
      congr 1
      exact ih (fun v hv => h v (List.mem_cons_of_mem x hv))
    · rw [if_neg (by simpa using hx)]
      congr 1
      exact ih (fun v hv => h v (List.mem_cons_of_mem x hv))

/-- Every document of an updated store is the replacement or an untouched
document with a different id. -/
theorem mem_updateById (l : List Account) (u v : Account)
    (hv : v ∈ updateById l u) (hid : v.id = u.id) : v = u := by
  simp only [updateById, List.mem_map] at hv
  obtain ⟨w, _, hw⟩ := hv
  by_cases h : w.id = u.id
  · rw [← hw, if_pos (by simpa using h)]
  · rw [← hw, if_neg (by simpa using h)] at hid ⊢
    exact absurd hid h

/-- `find?` after an id-keyed replacement: when the replaced document was
the first hit and the replacement still satisfies the selector, the
replacement is the new first hit (ids are pairwise distinct, as MongoDB
guarantees for `_id`). -/
theorem find?_updateById (l : List Account) (q : Account → Bool) (u u' : Account)
    (hfind : l.find? q = some u) (hid : u'.id = u.id) (hq : q u' = true)
    (hids : l.Pairwise (fun x y => x.id ≠ y.id)) :
    (updateById l u').find? q = some u' := by
  induction l with
  | nil => simp at hfind
  | cons x xs ih =>
    rcases List.pairwise_cons.mp hids with ⟨hx, hxs⟩
    by_cases hqx : q x = true
    · rw [List.find?_cons_of_pos _ hqx] at hfind
      injection hfind with hxu
      have : (x.id == u'.id) = true := by simp [hxu, hid]
      simp only [updateById, List.map_cons, this, if_true]
      exact List.find?_cons_of_pos _ hq
    · rw [List.find?_cons_of_neg _ (by simpa using hqx)] at hfind
      have hmem := List.mem_of_find?_eq_some hfind
      have hne : (x.id == u'.id) = false := by
        simp only [beq_eq_false_iff_ne, ne_eq, hid]
        exact hx u hmem
      simp only [updateById, List.map_cons, hne, Bool.false_eq_true, if_false]
      rw [List.find?_cons_of_neg _ (by simpa using hqx)]
      exact ih hfind hxs

/-- With pairwise-distinct ids, at most one stored document carries a given
id. -/
theorem countP_id_le_one (l : List Account) (i : Nat)
    (hids : l.Pairwise (fun x y => x.id ≠ y.id)) :
    l.countP (fun v => v.id == i) ≤ 1 := by
  induction l with
  | nil => simp
  | cons x xs ih =>
    rcases List.pairwise_cons.mp hids with ⟨hx, hxs⟩
    by_cases hxi : x.id = i
    · have hz : xs.countP (fun v => v.id == i) = 0 := by
        rw [List.countP_eq_zero]
        intro v hv
        simp only [beq_iff_eq]
        rw [← hxi]
        exact fun hvx => (hx v hv) hvx.symm
      simp [List.countP_cons, hxi, hz]
    · simpa [List.countP_cons, hxi] using ih hxs

/-- C7: link-or-create is idempotent — run twice with one profile over a
store with pairwise-distinct ids it returns the same account both times and
the second run changes nothing; the first run adds at most one document; and
when no stored account carried the profile's federated subject beforehand,
at most one does afterwards. -/
theorem linkOrCreate_idempotent (p : GoogleProfile) (store : List Account)
    (hids : store.Pairwise (fun x y => x.id ≠ y.id)) :
    (linkOrCreate p (linkOrCreate p store).2).1 = (linkOrCreate p store).1
    ∧ (linkOrCreate p (linkOrCreate p store).2).2 = (linkOrCreate p store).2
    ∧ (linkOrCreate p store).2.length ≤ store.length + 1
    ∧ ((∀ v ∈ store, v.googleId ≠ some p.sub) →
        ((linkOrCreate p store).2.countP
          (fun v => v.googleId == some p.sub)) ≤ 1) := by
  cases hf : store.find? (googleSelector p.sub p.email) with
  | none =>
    have h1 : linkOrCreate p store =
        (newGoogleAccount p store, newGoogleAccount p store :: store) := by
      simp [linkOrCreate, hf]
    have hqc : googleSelector p.sub p.email (newGoogleAccount p store) = true := by
      simp [googleSelector, newGoogleAccount]
    have hfind2 : (newGoogleAccount p store :: store).find?
        (googleSelector p.sub p.email) = some (newGoogleAccount p store) :=
      List.find?_cons_of_pos _ hqc
    have hself : updateById (newGoogleAccount p store :: store)
        (newGoogleAccount p store) = newGoogleAccount p store :: store := by
      apply updateById_eq_self
      intro v hv hvid
      rcases List.mem_cons.mp hv with hv | hv
      · exact hv
      · exact absurd hvid (Nat.ne_of_lt (freshId_gt store v hv))
    have h2 : linkOrCreate p (newGoogleAccount p store :: store) =
        (newGoogleAccount p store, newGoogleAccount p store :: store) := by
      simp only [linkOrCreate, hfind2]
      by_cases hsub : p.sub = ""
      · rw [if_pos (by simp [newGoogleAccount, jsFalsy, hsub])]
        exact congrArg (Prod.mk _) hself
      · rw [if_neg (by simp [newGoogleAccount, jsFalsy, hsub])]
    rw [h1]
    refine ⟨by rw [h2], by rw [h2], by simp, fun hno => ?_⟩
    have hz : store.countP (fun v => v.googleId == some p.sub) = 0 := by
      rw [List.countP_eq_zero]
      intro v hv
      simpa using hno v hv
    simp [List.countP_cons, newGoogleAccount, hz]
  | some u =>
    have hq := List.find?_some hf
    have hmem := List.mem_of_find?_eq_some hf
    by_cases hfal : jsFalsy u.googleId
    · -- the stamp branch: the found account gets the google id and the flag
      have h1 : linkOrCreate p store =
          ({ u with googleId := some p.sub, isEmailVerified := true },
            updateById store { u with googleId := some p.sub, isEmailVerified := true }) := by
        simp [linkOrCreate, hf, hfal]
      have hq' : googleSelector p.sub p.email
          { u with googleId := some p.sub, isEmailVerified := true } = true := by
        simp [googleSelector]
      have hfind2 : (updateById store
            { u with googleId := some p.sub, isEmailVerified := true }).find?
            (googleSelector p.sub p.email) =
          some { u with googleId := some p.sub, isEmailVerified := true } :=
        find?_updateById store _ u _ hf rfl hq' hids
      have hself : updateById
          (updateById store { u with googleId := some p.sub, isEmailVerified := true })
          { u with googleId := some p.sub, isEmailVerified := true } =
          updateById store { u with googleId := some p.sub, isEmailVerified := true } := by
        apply updateById_eq_self
        intro v hv hvid
        exact mem_updateById store _ v hv hvid
      have h2 : linkOrCreate p
          (updateById store { u with googleId := some p.sub, isEmailVerified := true }) =
          ({ u with googleId := some p.sub, isEmailVerified := true },
            updateById store { u with googleId := some p.sub, isEmailVerified := true }) := by
        simp only [linkOrCreate, hfind2]
        by_cases hsub : p.sub = ""
        · rw [if_pos (by simp [jsFalsy, hsub])]
          exact congrArg (Prod.mk _) hself
        · rw [if_neg (by simp [jsFalsy, hsub])]
      rw [h1]
      refine ⟨by rw [h2], by rw [h2], by simp [updateById], fun hno => ?_⟩
      have hcong : (updateById store
            { u with googleId := some p.sub, isEmailVerified := true }).countP
            (fun v => v.googleId == some p.sub) =
          store.countP (fun v => v.id == u.id) := by
        rw [updateById, List.countP_map]
        apply List.countP_congr
        intro v hv
        by_cases hvid : v.id = u.id
        · simp [Function.comp, hvid]
        · have : v.googleId ≠ some p.sub := hno v hv
          simp [Function.comp, hvid, this]
      rw [hcong]
      exact countP_id_le_one store u.id hids
    · -- already linked: nothing changes on either run
      have h1 : linkOrCreate p store = (u, store) := by
        simp [linkOrCreate, hf, hfal]
      rw [h1]
      refine ⟨by rw [h1], by rw [h1], Nat.le_succ _, fun hno => ?_⟩
      have hz : store.countP (fun v => v.googleId == some p.sub) = 0 := by
        rw [List.countP_eq_zero]
        intro v hv
        simpa using hno v hv
      simp [hz]

/-- A concrete profile for exercising the idempotence theorem. -/
def linkProfileW : GoogleProfile := ⟨"gid1", "w@x.com", "W", "X", ""⟩

/-- C7 witness: the idempotence theorem applied to a concrete profile over
the empty store. -/
theorem linkOrCreate_idempotent_witness :
    List.Pairwise (fun x y => x.id ≠ y.id) ([] : List Account)
    ∧ ((linkOrCreate linkProfileW (linkOrCreate linkProfileW []).2).1 =
          (linkOrCreate linkProfileW []).1
      ∧ (linkOrCreate linkProfileW (linkOrCreate linkProfileW []).2).2 =
          (linkOrCreate linkProfileW []).2
      ∧ (linkOrCreate linkProfileW []).2.length ≤ ([] : List Account).length + 1
      ∧ ((∀ v ∈ ([] : List Account), v.googleId ≠ some linkProfileW.sub) →
          ((linkOrCreate linkProfileW []).2.countP
            (fun v => v.googleId == some linkProfileW.sub)) ≤ 1)) :=
  ⟨List.Pairwise.nil, linkOrCreate_idempotent linkProfileW [] List.Pairwise.nil⟩

/-- C6: the development branch fires precisely when the posted token is the
sentinel string and `NODE_ENV` is `'development'`; in that case the handler
consults no verifier at all (its result is the same under any two verifier
behaviours), links or creates the fixed `test@gmail.com` account, and the
returned session token verifies; with any other `NODE_ENV`, the sentinel
token is handed to the real verifier, which rejects it. -/
theorem mock_google_login_gating (env : Option String) (expSec now : Nat)
    (nodeEnv : String) (vA vB : String → GoogleVerifyOutcome) (tok : String)
    (store : List Account) :
    ((tok == mockGoogleToken && nodeEnv == "development") = true →
      googleAuth env expSec now nodeEnv vA tok store =
          googleAuth env expSec now nodeEnv vB tok store
      ∧ googleAuth env expSec now nodeEnv vA tok store =
          (.success "Development Google login successful"
            (generateToken env expSec now (linkOrCreate mockProfile store).1)
            (linkOrCreate mockProfile store).1,
           (linkOrCreate mockProfile store).2)
      ∧ (0 < expSec →
          verifyToken env now
            (generateToken env expSec now (linkOrCreate mockProfile store).1) =
            .ok ⟨(linkOrCreate mockProfile store).1.id,
                 (linkOrCreate mockProfile store).1.email⟩))
    ∧ ((tok == mockGoogleToken && nodeEnv == "development") = false →
        vA tok = .throws →
        googleAuth env expSec now nodeEnv vA tok store =
          (.failure googleServerError, store))
    ∧ ((linkOrCreate mockProfile []).1.email = "test@gmail.com"
      ∧ (linkOrCreate mockProfile []).1.googleId = some "dev_google_id_123"
      ∧ (linkOrCreate mockProfile []).1.isEmailVerified = true
      ∧ (linkOrCreate mockProfile []).1.password = none) := by
  refine ⟨fun hc => ⟨?_, ?_, fun hpos => ?_⟩, fun hc hthrow => ?_, by decide⟩
  · simp [googleAuth, hc]
  · simp [googleAuth, hc]
  · simp [generateToken, verifyToken, tokenSecret_agree env, Nat.lt_add_of_pos_right hpos]
  · simp [googleAuth, hc, hthrow]

/-- Length of the digit accumulator built by `Nat.toDigitsCore`: one
character per decimal digit. -/
theorem toDigitsCore_length_eq (b : Nat) (hb : 2 ≤ b) :
    ∀ (f n : Nat) (l : List Char), n < f →
      (Nat.toDigitsCore b f n l).length = l.length + Nat.log b n + 1 := by
  intro f
  induction f with
  | zero => intro n l h; exact absurd h (Nat.not_lt_zero n)
  | succ f ih =>
    intro n l hn
    simp only [Nat.toDigitsCore]
    by_cases hdiv : n / b = 0
    · have hnb : n < b := (Nat.div_eq_zero_iff (by omega)).mp hdiv
      rw [if_pos hdiv, Nat.log_eq_zero_iff.mpr (Or.inl hnb)]
      simp
    · rw [if_neg hdiv]
      have hb0 : 0 < b := by omega
      have hnb : b ≤ n := by
        by_contra hlt
        exact hdiv ((Nat.div_eq_zero_iff hb0).mpr (by omega))
      have hlt : n / b < f := by
        have := Nat.div_lt_self (by omega : 0 < n) (by omega : 1 < b)
        omega
      rw [ih (n / b) (Nat.digitChar (n % b) :: l) hlt]
      have hlog : Nat.log b (n / b) = Nat.log b n - 1 := Nat.log_div_base b n
      have hpos : 0 < Nat.log b n := Nat.log_pos (by omega) hnb
      simp only [List.length_cons]
      omega

/-- Every natural in `[100000, 1000000)` prints as exactly six characters. -/
theorem repr_length_six (n : Nat) (h1 : 100000 ≤ n) (h2 : n < 1000000) :
    (Nat.repr n).length = 6 := by
  have hcore : (Nat.toDigits 10 n).length = Nat.log 10 n + 1 := by
    have := toDigitsCore_length_eq 10 (by omega) (n + 1) n [] (Nat.lt_succ_self n)
    simpa [Nat.toDigits] using this
  have e5 : (10 : Nat) ^ 5 = 100000 := by norm_num
  have hlog : Nat.log 10 n = 5 :=
    Nat.log_eq_of_pow_le_of_lt_pow (e5 ▸ h1) (by norm_num; exact h2)
  have hrepr : (Nat.repr n).length = (Nat.toDigits 10 n).length := rfl
  rw [hrepr, hcore, hlog]

/-- C8: every issued code is the decimal print of a number in the inclusive
range 100000–999999 and is six characters long; the draw is a bijection from
the 900000 possible random values onto that range (so a uniform draw yields a
uniform code); and a signup for a fresh email creates its account unverified
with the otp window set exactly ten minutes (600000 ms) after issuance. -/
theorem generateOTP_range_and_signup_fields (r now : Nat) (req : SignupRequest)
    (store : List Account) (emailOk : Bool) :
    100000 ≤ otpNumber r
    ∧ otpNumber r ≤ 999999
    ∧ (generateOTP r).length = 6
    ∧ (∀ n, 100000 ≤ n → n ≤ 999999 → ∃ s, s < 900000 ∧ otpNumber s = n)
    ∧ (∀ s1 s2, s1 < 900000 → s2 < 900000 → otpNumber s1 = otpNumber s2 → s1 = s2)
    ∧ (findOneByEmail store req.email = none →
        (signup req r now emailOk store).store = newLocalAccount req r now store :: store
        ∧ (newLocalAccount req r now store).isEmailVerified = false
        ∧ (newLocalAccount req r now store).otpExpiry = some (now + 10 * 60 * 1000)
        ∧ (newLocalAccount req r now store).otp = some (generateOTP r)
        ∧ (signup req r now emailOk store).response = signupCreated) := by
  have hmod : r % 900000 < 900000 := Nat.mod_lt r (by omega)
  refine ⟨Nat.le_add_right _ _, by unfold otpNumber; omega, ?_, ?_, ?_, fun h => ?_⟩
  · exact repr_length_six (otpNumber r) (Nat.le_add_right _ _) (by unfold otpNumber; omega)
  · intro n hn1 hn2
    refine ⟨n - 100000, by omega, ?_⟩
    unfold otpNumber
    rw [Nat.mod_eq_of_lt (by omega)]
    omega
  · intro s1 s2 hs1 hs2 heq
    unfold otpNumber at heq
    rw [Nat.mod_eq_of_lt hs1, Nat.mod_eq_of_lt hs2] at heq
    omega
  · have : (findOneByEmail store req.email).isSome = false := by simp [h]
    refine ⟨by simp [signup, this], rfl, rfl, rfl, by simp [signup, this]⟩

/-- C9: a failing email dispatch changes neither the signup reply nor the
signup store — the failure is only logged — while the resend handler answers
500 on the same failure yet persists the fresh code and window either way:
the store after a failed-dispatch resend equals the store after a successful
one, namely the found account updated with the new otp fields. -/
theorem email_failure_signup_vs_resend (req : SignupRequest) (otpRand now : Nat)
    (email : String) (store : List Account) :
    ((signup req otpRand now false store).response =
        (signup req otpRand now true store).response)
    ∧ ((signup req otpRand now false store).store =
        (signup req otpRand now true store).store)
    ∧ (findOneByEmail store req.email = none →
        (signup req otpRand now false store).response = signupCreated
        ∧ (signup req otpRand now false store).emailFailureLogged = true)
    ∧ ((resendOtp otpRand now false email store).2 =
        (resendOtp otpRand now true email store).2)
    ∧ (∀ u, (email == "") = false →
        store.find? (resendSelector email) = some u →
        (resendOtp otpRand now false email store).1 = resendEmailFailed
        ∧ (resendOtp otpRand now true email store).1 = resendOk
        ∧ (resendOtp otpRand now false email store).2 =
            updateById store { u with otp := some (generateOTP otpRand)
                                      otpExpiry := some (now + otpWindowMillis) }) := by
  refine ⟨?_, ?_, fun h => ?_, ?_, fun u he hf => ?_⟩
  · by_cases h : (findOneByEmail store req.email).isSome <;> simp [signup, h]
  · by_cases h : (findOneByEmail store req.email).isSome <;> simp [signup, h]
  · have : (findOneByEmail store req.email).isSome = false := by simp [h]
    exact ⟨by simp [signup, this], by simp [signup, this]⟩
  · cases he : email == "" with
    | true => simp [resendOtp, he]
    | false =>
      cases hf : store.find? (resendSelector email) with
      | none => simp [resendOtp, he, hf]
      | some u => simp [resendOtp, he, hf]
  · exact ⟨by simp [resendOtp, he, hf], by simp [resendOtp, he, hf],
      by simp [resendOtp, he, hf]⟩
